import Mathlib

/-!
Verification of the evaluation harness of the YouTube-to-blog repository
(`run_evals.py`, `prepare_dataset.py`, `utils/summarizer.py`).

Embedding conventions:
* Python text is modelled by `String`; per-character operations work on
  `String.data` with structural recursion so that concrete instances reduce
  in the kernel.  `str.isalnum` / `str.lower` / `str.strip` are modelled by
  the ASCII `Char.isAlphanum` / `Char.toLower` / `Char.isWhitespace`; the
  Unicode cases outside ASCII are not modelled.  `str.splitlines` is
  modelled as splitting on a newline character only.
* Python floats are modelled by `ℚ`; `round(x, 4)` is modelled as exact
  rational round-half-to-even at four decimal places (`round4`).
* Python `set` becomes `Finset String`, `dict` becomes an association list
  (insertion-ordered, unique keys), exceptions become `Except`/`Option`
  results, and the filesystem is passed explicitly.
-/

/-- Characters of the Python string `"".join(ch.lower() if ch.isalnum() else " " for ch in text)`
from `tokenize` in `run_evals.py`. -/
def cleanChars (text : String) : List Char :=
  text.data.map (fun ch => if ch.isAlphanum then ch.toLower else ' ')

/-- Model of Python `str.split()` on a space-separated character list: maximal
runs of non-space characters, empty words dropped. -/
def splitWords : List Char → List Char → List String
  | [], acc => if acc.isEmpty then [] else [String.mk acc.reverse]
  | c :: rest, acc =>
    if c = ' ' then
      (if acc.isEmpty then splitWords rest [] else String.mk acc.reverse :: splitWords rest [])
    else splitWords rest (c :: acc)

/-- The `STOPWORDS` set of `run_evals.py`. -/
def STOPWORDS : List String :=
  ["a", "an", "and", "are", "as", "be", "but", "for", "from", "in", "is", "it",
   "of", "on", "or", "that", "the", "to", "with", "you", "your", "this", "we"]

/-- The `CTA_KEYWORDS` set of `run_evals.py`. -/
def CTA_KEYWORDS : List String :=
  ["subscribe", "share", "tag", "join", "follow", "call to action",
   "let us know", "tell us", "comment"]

/-- Function `tokenize` from `run_evals.py`: lower-case, replace non-alphanumeric
characters by spaces, split on whitespace, drop empty tokens and stop words. -/
def tokenize (text : String) : List String :=
  (splitWords (cleanChars text) []).filter (fun tok => tok ≠ "" ∧ tok ∉ STOPWORDS)

/-- Model of Python banker's rounding of a rational to the nearest integer
(`round` rounds half to even). -/
def roundHalfEven (q : ℚ) : ℤ :=
  let f : ℤ := ⌊q⌋
  let r : ℚ := q - (f : ℚ)
  if r < 1/2 then f
  else if 1/2 < r then f + 1
  else if f % 2 = 0 then f else f + 1

/-- Model of Python `round(x, 4)` on an exact rational. -/
def round4 (q : ℚ) : ℚ := ((roundHalfEven (q * 10000) : ℤ) : ℚ) / 10000

/-- Function `keyword_recall` from `run_evals.py`. -/
def keyword_recall (reference generated : String) : ℚ :=
  let ref_tokens := ((tokenize reference).filter (fun tok => tok.length > 4)).toFinset
  if ref_tokens = ∅ then 0
  else
    let gen_tokens := (tokenize generated).toFinset
    let overlap := ref_tokens ∩ gen_tokens
    round4 ((overlap.card : ℚ) / (ref_tokens.card : ℚ))

/-- Function `simple_overlap` from `run_evals.py`. -/
def simple_overlap (reference generated : String) : ℚ :=
  let ref_tokens := (tokenize reference).toFinset
  if ref_tokens = ∅ then 0
  else
    let gen_tokens := (tokenize generated).toFinset
    let overlap := ref_tokens ∩ gen_tokens
    round4 ((overlap.card : ℚ) / ((ref_tokens ∪ gen_tokens).card : ℚ))

/-- Modelled from the spec (section 4.2, claim C1): lexical overlap is the
Jaccard similarity of the content-word token sets, rounded to four decimal
places, and `0.0` when the reference token set is empty. -/
def lexical_overlap_spec (reference generated : String) : ℚ :=
  let refSet := (tokenize reference).toFinset
  let genSet := (tokenize generated).toFinset
  if refSet = ∅ then 0
  else round4 (((refSet ∩ genSet).card : ℚ) / ((refSet ∪ genSet).card : ℚ))

/-- Modelled from the spec (section 4.2, claim C5): keyword recall over the
reference tokens longer than four characters, rounded to four decimals,
`0.0` when the keyword set is empty. -/
def keyword_recall_spec (reference generated : String) : ℚ :=
  let keywordSet := ((tokenize reference).filter (fun tok => tok.length > 4)).toFinset
  if keywordSet = ∅ then 0
  else round4 (((keywordSet ∩ (tokenize generated).toFinset).card : ℚ) / (keywordSet.card : ℚ))

theorem simple_overlap_eq (reference generated : String) :
    simple_overlap reference generated =
      if (tokenize reference).toFinset = ∅ then 0
      else round4 ((((tokenize reference).toFinset ∩ (tokenize generated).toFinset).card : ℚ)
        / (((tokenize reference).toFinset ∪ (tokenize generated).toFinset).card : ℚ)) := rfl

theorem keyword_recall_eq (reference generated : String) :
    keyword_recall reference generated =
      if ((tokenize reference).filter (fun tok => tok.length > 4)).toFinset = ∅ then 0
      else round4 (((((tokenize reference).filter (fun tok => tok.length > 4)).toFinset
            ∩ (tokenize generated).toFinset).card : ℚ)
        / ((((tokenize reference).filter (fun tok => tok.length > 4)).toFinset.card : ℚ))) := rfl

theorem round4_zero : round4 0 = 0 := by
  norm_num [round4, roundHalfEven]

theorem round4_one : round4 1 = 1 := by
  norm_num [round4, roundHalfEven]

/-- C1: `simple_overlap` is exactly the spec's Jaccard-similarity formula on
content-word token sets, rounded to four decimal places, and it returns `0.0`
whenever the reference's token set is empty, for any generated text. -/
theorem evals_C1 :
    (∀ reference generated : String,
        simple_overlap reference generated = lexical_overlap_spec reference generated)
    ∧ (∀ reference generated : String,
        (tokenize reference).toFinset = ∅ → simple_overlap reference generated = 0) := by
  constructor
  · intro reference generated
    rfl
  · intro reference generated h
    rw [simple_overlap_eq, if_pos h]

theorem evals_C1_witness :
    simple_overlap "the of and" "anything at all" = 0 :=
  evals_C1.2 "the of and" "anything at all" (by decide)

/-- C5: `keyword_recall` is exactly the spec's formula (reference tokens longer
than 4 characters intersected with the generated token set, over the keyword
set size, rounded to 4 decimals, `0.0` on an empty keyword set), and on an
empty reference both `keyword_recall` and `simple_overlap` return `0.0`. -/
theorem evals_C5 :
    (∀ reference generated : String,
        keyword_recall reference generated = keyword_recall_spec reference generated)
    ∧ (∀ generated : String,
        keyword_recall "" generated = 0 ∧ simple_overlap "" generated = 0) := by
  constructor
  · intro reference generated
    rfl
  · intro generated
    constructor
    · rw [keyword_recall_eq, if_pos (by decide)]
    · rw [simple_overlap_eq, if_pos (by decide)]

/-- C6: `simple_overlap` is symmetric in its two arguments, while
`keyword_recall` is not: it differs on the pair
`("elephant giraffe", "elephant")`. -/
theorem evals_C6 :
    (∀ a b : String, simple_overlap a b = simple_overlap b a)
    ∧ keyword_recall "elephant giraffe" "elephant"
        ≠ keyword_recall "elephant" "elephant giraffe" := by
  constructor
  · intro a b
    rw [simple_overlap_eq, simple_overlap_eq]
    by_cases ha : (tokenize a).toFinset = ∅ <;> by_cases hb : (tokenize b).toFinset = ∅
    · rw [if_pos ha, if_pos hb]
    · rw [if_pos ha, if_neg hb, ha]
      simp [round4_zero]
    · rw [if_neg ha, if_pos hb, hb]
      simp [round4_zero]
    · rw [if_neg ha, if_neg hb, Finset.inter_comm, Finset.union_comm]
  · have h1 : keyword_recall "elephant giraffe" "elephant" = round4 ((1 : ℚ) / 2) := by
      rw [keyword_recall_eq, if_neg (by decide)]
      have hi : ((((tokenize "elephant giraffe").filter (fun tok => tok.length > 4)).toFinset
          ∩ (tokenize "elephant").toFinset).card) = 1 := by decide
      have hk : (((tokenize "elephant giraffe").filter (fun tok => tok.length > 4)).toFinset.card) = 2 := by
        decide
      rw [hi, hk]
      norm_num
    have h2 : keyword_recall "elephant" "elephant giraffe" = round4 1 := by
      rw [keyword_recall_eq, if_neg (by decide)]
      have hi : ((((tokenize "elephant").filter (fun tok => tok.length > 4)).toFinset
          ∩ (tokenize "elephant giraffe").toFinset).card) = 1 := by decide
      have hk : (((tokenize "elephant").filter (fun tok => tok.length > 4)).toFinset.card) = 1 := by
        decide
      rw [hi, hk]
      norm_num
    rw [h1, h2, round4_one]
    norm_num [round4, roundHalfEven]

/-- Function `rouge_scores` from `run_evals.py`.  The optional `rouge_score` dependency
is modelled by an `Option`-valued scorer: `none` means the import failed and
the lexical-overlap fallback is used; `some score` means the real scorer computes
the two F-measures, which the code rounds to four decimals. -/
def rouge_scores (scorer : Option (String → String → ℚ × ℚ))
    (reference generated : String) : List (String × ℚ) :=
  match scorer with
  | none =>
    let overlap := simple_overlap reference generated
    [("rouge1_f", overlap), ("rougeL_f", overlap)]
  | some score =>
    let s := score reference generated
    [("rouge1_f", round4 s.1), ("rougeL_f", round4 s.2)]

/-- C4: with the ROUGE dependency unavailable, both `rouge1_f` and `rougeL_f`
equal the lexical-overlap score; on any reference with a nonempty token set
compared against itself the fallback equals `1.0`, in particular for
`"the quick brown fox jumps"`. -/
theorem evals_C4 :
    (∀ reference generated : String,
        (rouge_scores none reference generated).lookup "rouge1_f"
            = some (simple_overlap reference generated)
        ∧ (rouge_scores none reference generated).lookup "rougeL_f"
            = some (simple_overlap reference generated))
    ∧ (∀ reference : String, ((tokenize reference).toFinset).Nonempty →
        simple_overlap reference reference = 1)
    ∧ simple_overlap "the quick brown fox jumps" "the quick brown fox jumps" = 1 := by
  have hself : ∀ reference : String, ((tokenize reference).toFinset).Nonempty →
      simple_overlap reference reference = 1 := by
    intro reference h
    rw [simple_overlap_eq, if_neg (Finset.nonempty_iff_ne_empty.mp h)]
    rw [Finset.inter_self, Finset.union_self]
    rw [div_self (by exact_mod_cast Finset.card_ne_zero.mpr h)]
    exact round4_one
  refine ⟨?_, hself, hself _ (by decide)⟩
  intro reference generated
  exact ⟨rfl, rfl⟩

theorem evals_C4_witness :
    ((tokenize "the quick brown fox jumps").toFinset).Nonempty
    ∧ simple_overlap "the quick brown fox jumps" "the quick brown fox jumps" = 1 :=
  ⟨by decide, evals_C4.2.1 "the quick brown fox jumps" (by decide)⟩

/-- Python `statistics.mean` on a list of rationals. -/
def listMean (values : List ℚ) : ℚ := values.sum / (values.length : ℚ)

/-- Function `aggregate` from `run_evals.py`: per-sample metric dictionaries become
association lists; `sorted({...})` becomes `dedup` followed by `mergeSort`. -/
def aggregate (results : List (String × List (String × ℚ))) : List (String × ℚ) :=
  if results.isEmpty then []
  else
    let all_keys :=
      (((results.map (fun sample => sample.2.map Prod.fst)).flatten).dedup).mergeSort
        (fun a b => a ≤ b)
    all_keys.map (fun metric =>
      let values := results.filterMap (fun sample => sample.2.lookup metric)
      ("avg_" ++ metric, if values.isEmpty then 0 else listMean values))

theorem string_append_left_cancel {s t u : String} (h : s ++ t = s ++ u) : t = u := by
  have h2 : (s ++ t).data = (s ++ u).data := congrArg String.data h
  simp only [String.data_append] at h2
  exact String.ext (List.append_cancel_left h2)

theorem lookup_map_avg (f : String → ℚ) (metric : String) :
    ∀ keys : List String, metric ∈ keys →
      (keys.map (fun k => ("avg_" ++ k, f k))).lookup ("avg_" ++ metric) = some (f metric) := by
  intro keys
  induction keys with
  | nil => intro h; exact absurd h (List.not_mem_nil _)
  | cons k rest ih =>
    intro h
    by_cases hk : k = metric
    · subst hk
      simp [List.lookup]
    · have hne : (("avg_" ++ metric) == ("avg_" ++ k)) = false := by
        simp only [beq_eq_false_iff_ne, ne_eq]
        intro hc
        exact hk (string_append_left_cancel hc).symm
      have hmem : metric ∈ rest := by
        rcases List.mem_cons.mp h with h1 | h1
        · exact absurd h1.symm hk
        · exact h1
      simpa [List.lookup, hne] using ih hmem

theorem lookup_some_of_mem_keys :
    ∀ (l : List (String × ℚ)) (k : String), k ∈ l.map Prod.fst → ∃ v, l.lookup k = some v := by
  intro l
  induction l with
  | nil => intro k h; exact absurd h (List.not_mem_nil _)
  | cons p rest ih =>
    intro k h
    by_cases hk : k = p.1
    · subst hk
      exact ⟨p.2, by simp [List.lookup]⟩
    · have hne : (k == p.1) = false := by simp [hk]
      have hmem : k ∈ rest.map Prod.fst := by
        rcases List.mem_cons.mp h with h1 | h1
        · exact absurd h1 hk
        · exact h1
      simpa [List.lookup, hne] using ih k hmem

/-- C2: the aggregator of an empty results mapping is empty; for every metric
observed in at least one sample, the summary binds `avg_<metric>` to the
arithmetic mean of the metric over exactly the samples whose result contains
it; and on `{a: {m: 1}, b: {m: 3}}` it yields `avg_m = 2`. -/
theorem evals_C2 :
    aggregate [] = []
    ∧ (∀ (results : List (String × List (String × ℚ))) (metric : String),
        (∃ sample ∈ results, metric ∈ sample.2.map Prod.fst) →
        (aggregate results).lookup ("avg_" ++ metric)
          = some (listMean (results.filterMap (fun sample => sample.2.lookup metric))))
    ∧ (aggregate [("a", [("m", 1)]), ("b", [("m", 3)])]).lookup "avg_m" = some 2 := by
  have hkey : ∀ (results : List (String × List (String × ℚ))) (metric : String),
      (∃ sample ∈ results, metric ∈ sample.2.map Prod.fst) →
      (aggregate results).lookup ("avg_" ++ metric)
        = some (listMean (results.filterMap (fun sample => sample.2.lookup metric))) := by
    intro results metric ⟨sample, hs, hm⟩
    have hne : results.isEmpty = false := by
      cases results with
      | nil => exact absurd hs (List.not_mem_nil _)
      | cons a as => rfl
    have hkeys : metric ∈
        ((((results.map (fun sample => sample.2.map Prod.fst)).flatten).dedup).mergeSort
          (fun a b => a ≤ b)) := by
      rw [List.mem_mergeSort, List.mem_dedup, List.mem_flatten]
      exact ⟨sample.2.map Prod.fst, List.mem_map_of_mem _ hs, hm⟩
    have hvals : (results.filterMap (fun sample => sample.2.lookup metric)).isEmpty = false := by
      obtain ⟨v, hv⟩ := lookup_some_of_mem_keys sample.2 metric hm
      have hvmem : v ∈ results.filterMap (fun sample => sample.2.lookup metric) :=
        List.mem_filterMap.mpr ⟨sample, hs, hv⟩
      cases hfm : results.filterMap (fun sample => sample.2.lookup metric) with
      | nil => rw [hfm] at hvmem; exact absurd hvmem (List.not_mem_nil _)
      | cons a as => rfl
    unfold aggregate
    rw [hne]
    simp only [Bool.false_eq_true, if_false]
    rw [lookup_map_avg
      (fun metric =>
        if (results.filterMap (fun sample => sample.2.lookup metric)).isEmpty then 0
        else listMean (results.filterMap (fun sample => sample.2.lookup metric)))
      metric _ hkeys]
    rw [hvals]
    simp
  refine ⟨rfl, hkey, ?_⟩
  have havg : ("avg_" ++ "m" : String) = "avg_m" := rfl
  have h := hkey [("a", [("m", 1)]), ("b", [("m", 3)])] "m"
    ⟨("a", [("m", 1)]), List.mem_cons_self _ _, by simp⟩
  rw [havg] at h
  rw [h]
  have hfm : ([("a", [("m", (1:ℚ))]), ("b", [("m", 3)])].filterMap
      (fun sample => sample.2.lookup "m")) = [1, 3] := rfl
  rw [hfm]
  norm_num [listMean]

theorem evals_C2_witness :
    (aggregate [("a", [("m", 1)]), ("b", [("m", 3)])]).lookup ("avg_" ++ "m")
      = some (listMean ([("a", [("m", (1:ℚ))]), ("b", [("m", 3)])].filterMap
          (fun sample => sample.2.lookup "m"))) :=
  evals_C2.2.1 [("a", [("m", 1)]), ("b", [("m", 3)])] "m"
    ⟨("a", [("m", 1)]), List.mem_cons_self _ _, by simp⟩

/-- Model of Python `str.lower()` (ASCII case mapping). -/
def lowerString (s : String) : String := String.mk (s.data.map Char.toLower)

/-- Keys of the `tone_instructions` dictionary in `utils/summarizer.py`. -/
def tone_instructions_keys : List String :=
  ["professional", "casual", "educational", "persuasive"]

/-- Tone string that `resolve_generated_text` in `run_evals.py` passes to
`generate_blog`: `sample.get("tone", "professional").lower()` (the sample dict
is built by `evaluate` as `row.get("tone", "professional")`, so a missing row
field yields the same default). -/
def resolve_tone (rowTone : Option String) : String :=
  lowerString (rowTone.getD "professional")

/-- Tone actually used by `generate_blog` in `utils/summarizer.py`: an input
not among the `tone_instructions` keys is replaced by `"professional"`. -/
def generate_blog_tone (tone : String) : String :=
  if tone ∈ tone_instructions_keys then tone else "professional"

/-- Tone used by the generation capability for a dataset row's `tone` field
(`none` models an absent field): the composition of `resolve_tone` and
`generate_blog_tone`. -/
def effective_tone (rowTone : Option String) : String :=
  generate_blog_tone (resolve_tone rowTone)

/-- Modelled from the spec (claim C9): `"professional"` whenever the tone field
is absent or holds an unrecognized value, otherwise the record's tone value
itself. -/
def claimed_tone_spec (rowTone : Option String) : String :=
  match rowTone with
  | none => "professional"
  | some t => if t ∈ tone_instructions_keys then t else "professional"

/-- C9 counterexample: for the record tone `"Casual"` the code passes the
lower-cased `"casual"` to generation, while the claim demands either the
record's own value `"Casual"` or the default `"professional"`; the two
functions disagree at this input. -/
theorem evals_C9_counterexample :
    effective_tone (some "Casual") = "casual"
    ∧ claimed_tone_spec (some "Casual") = "professional"
    ∧ effective_tone (some "Casual") ≠ claimed_tone_spec (some "Casual") := by
  exact ⟨by decide, by decide, by decide⟩

/-- C9 amended: the tone used downstream is the lower-cased record tone when
that lower-cased value is one of the recognized keys
(`professional`, `casual`, `educational`, `persuasive`), otherwise
`"professional"`; an absent tone field also yields `"professional"`. -/
theorem evals_C9_amended (rowTone : Option String) :
    effective_tone rowTone =
      match rowTone with
      | none => "professional"
      | some t =>
        if lowerString t ∈ tone_instructions_keys then lowerString t else "professional" := by
  cases rowTone with
  | none => rfl
  | some t => rfl

/-- Return value of `generate_blog` as consumed by `resolve_generated_text`:
a dict with a `status`, optional `message` and optional `blog_post` field, a
legacy plain string, or a value of any other type. -/
inductive PyResponse where
  | dict (status message blogPost : Option String)
  | str (s : String)
  | other

/-- String interpolation of an optional value, as in the Python f-string
`f"... {response.get(\x27message\x27)}"` where a missing key prints `None`. -/
def optFormat (o : Option String) : String := o.getD "None"

/-- Live-mode branch of `resolve_generated_text` in `run_evals.py`.  A raised
exception is modelled as `Except.error` carrying the message. -/
def resolve_generated_live (sampleId : String) (response : PyResponse) :
    Except String String :=
  match response with
  | PyResponse.dict status message blogPost =>
    if status = some "success" then
      match blogPost with
      | some blog => Except.ok blog
      | none => Except.error "KeyError: blog_post"
    else
      Except.error ("Model call failed for " ++ sampleId ++ ": " ++ optFormat message)
  | PyResponse.str s => Except.ok s
  | PyResponse.other => Except.error "Unexpected response type from generate_blog"

/-- C3 counterexample: a structured result with `status = "success"` and empty
`blog_post` content is returned as a successful (empty) generated text, not
rejected — contradicting the claim that empty content fails and that an empty
generated text is never returned as a success. -/
theorem evals_C3_counterexample :
    resolve_generated_live "sample_1"
      (PyResponse.dict (some "success") none (some "")) = Except.ok "" := rfl

/-- C3 amended: in live mode, resolving fails with an error whenever the
structured result's status is not `"success"`, but a success is returned with
its `blog_post` content unchanged, even when that content is empty — there is
no empty-content check. -/
theorem evals_C3_amended :
    (∀ (sampleId : String) (status message blogPost : Option String),
        status ≠ some "success" →
        resolve_generated_live sampleId (PyResponse.dict status message blogPost)
          = Except.error ("Model call failed for " ++ sampleId ++ ": " ++ optFormat message))
    ∧ (∀ (sampleId blog : String) (message : Option String),
        resolve_generated_live sampleId (PyResponse.dict (some "success") message (some blog))
          = Except.ok blog) := by
  constructor
  · intro sampleId status message blogPost h
    show (if status = some "success" then _ else _) = _
    rw [if_neg h]
  · intro sampleId blog message
    rfl

theorem evals_C3_witness :
    resolve_generated_live "sample_1"
        (PyResponse.dict (some "error") (some "rate limited") none)
      = Except.error ("Model call failed for " ++ "sample_1" ++ ": "
          ++ optFormat (some "rate limited")) :=
  evals_C3_amended.1 "sample_1" (some "error") (some "rate limited") none (by decide)

/-- Cached (mock) branch of `resolve_generated_text` in `run_evals.py`.  The
directory contents are modelled as a partial map from file name to file text;
`read_text` strips the content it returns. -/
def trimString (s : String) : String :=
  String.mk ((((s.data.dropWhile Char.isWhitespace).reverse).dropWhile Char.isWhitespace).reverse)

/-- Model of the mock/cached lookup loop `for ext in (".md", ".txt")`. -/
def resolve_generated_cached (sampleId : String) (files : String → Option String)
    (generatedDir : String) : Except String String :=
  match files (sampleId ++ ".md") with
  | some content => Except.ok (trimString content)
  | none =>
    match files (sampleId ++ ".txt") with
    | some content => Except.ok (trimString content)
    | none =>
      Except.error ("No cached output found for sample " ++ sampleId ++ " in " ++ generatedDir)

/-- C8: in cached mode, when neither `<id>.md` nor `<id>.txt` exists in the
generated-output directory, resolution fails with an error whose message
contains the sample id (the message is literally built around `sampleId`);
no empty text is substituted. -/
theorem evals_C8 (sampleId generatedDir : String) (files : String → Option String)
    (hmd : files (sampleId ++ ".md") = none) (htxt : files (sampleId ++ ".txt") = none) :
    resolve_generated_cached sampleId files generatedDir
      = Except.error ("No cached output found for sample " ++ sampleId
          ++ (" in " ++ generatedDir)) := by
  unfold resolve_generated_cached
  rw [hmd, htxt]
  simp [String.append_assoc]

theorem evals_C8_witness :
    resolve_generated_cached "sample_1" (fun _ => none) "evals/mock_outputs"
      = Except.error ("No cached output found for sample " ++ "sample_1"
          ++ (" in " ++ "evals/mock_outputs")) :=
  evals_C8 "sample_1" "evals/mock_outputs" (fun _ => none) rfl rfl

/-- One JSONL record of `evals/dataset.jsonl`, as written by `add_sample` in
`prepare_dataset.py`. -/
structure Row where
  id : String
  video_title : String
  video_url : String
  transcript_path : String
  reference_blog_path : String
  tone : String
  notes : String
deriving DecidableEq

/-- On-disk world seen by `prepare_dataset.py`: the stored dataset rows and
the set of existing files (placeholder creation adds to it). -/
structure DatasetStore where
  rows : List Row
  files : List String
deriving DecidableEq

/-- Arguments of `prepare_dataset.py add`. -/
structure AddArgs where
  id : String
  title : String
  video_url : String
  transcript : String
  reference : String
  tone : String
  notes : Option String
deriving DecidableEq

/-- Model of `Path.touch` guarded by `Path.exists` in `add_sample`. -/
def touchIfMissing (files : List String) (path : String) : List String :=
  if path ∈ files then files else files ++ [path]

/-- Function `add_sample` from `prepare_dataset.py`.  The returned pair is the
resulting world together with `some` error message when the call raised
`SystemExit` (in which case the world is returned unchanged, since the
duplicate check precedes every write). -/
def add_sample (st : DatasetStore) (args : AddArgs) : DatasetStore × Option String :=
  if st.rows.any (fun row => row.id == args.id) then
    (st, some ("Dataset already contains id \x27" ++ args.id
      ++ "\x27. Use a unique identifier."))
  else
    let files := touchIfMissing (touchIfMissing st.files args.transcript) args.reference
    let row : Row :=
      { id := args.id, video_title := args.title, video_url := args.video_url,
        transcript_path := args.transcript, reference_blog_path := args.reference,
        tone := args.tone, notes := args.notes.getD "" }
    ({ rows := st.rows ++ [row], files := files }, none)

/-- Sample ids printed by `list_samples` in `prepare_dataset.py`, in stored
order. -/
def list_ids (st : DatasetStore) : List String := st.rows.map Row.id

/-- C7: adding a sample whose id is already stored fails with the duplicate-id
error and leaves the whole world (rows and files) unchanged, while adding a
fresh id succeeds and makes `list` show that id exactly once. -/
theorem evals_C7 (st : DatasetStore) (args : AddArgs) :
    (args.id ∈ list_ids st →
      (add_sample st args).1 = st
      ∧ (add_sample st args).2 = some ("Dataset already contains id \x27" ++ args.id
          ++ "\x27. Use a unique identifier."))
    ∧ (args.id ∉ list_ids st →
      (add_sample st args).2 = none
      ∧ (list_ids (add_sample st args).1).count args.id = 1) := by
  constructor
  · intro hdup
    have hany : st.rows.any (fun row => row.id == args.id) = true := by
      rcases List.mem_map.mp hdup with ⟨row, hrow, hid⟩
      exact List.any_eq_true.mpr ⟨row, hrow, by simp [hid]⟩
    unfold add_sample
    rw [hany]
    exact ⟨rfl, rfl⟩
  · intro hfresh
    have hany : st.rows.any (fun row => row.id == args.id) = false := by
      rw [List.any_eq_false]
      intro row hrow
      simp only [beq_iff_eq]
      intro hid
      exact hfresh (List.mem_map.mpr ⟨row, hrow, hid⟩)
    unfold add_sample
    rw [hany]
    simp only [Bool.false_eq_true, if_false]
    refine ⟨trivial, ?_⟩
    unfold list_ids at hfresh ⊢
    simp only [List.map_append, List.map_cons, List.map_nil, List.count_append]
    rw [List.count_eq_zero.mpr hfresh]
    simp [List.count_cons]

theorem evals_C7_witness :
    ((add_sample ⟨[⟨"a", "t", "u", "p1", "p2", "professional", ""⟩], ["p1", "p2"]⟩
        ⟨"a", "t2", "u2", "q1", "q2", "casual", none⟩).1
      = ⟨[⟨"a", "t", "u", "p1", "p2", "professional", ""⟩], ["p1", "p2"]⟩
     ∧ (add_sample ⟨[⟨"a", "t", "u", "p1", "p2", "professional", ""⟩], ["p1", "p2"]⟩
        ⟨"a", "t2", "u2", "q1", "q2", "casual", none⟩).2
      = some ("Dataset already contains id \x27" ++ "a" ++ "\x27. Use a unique identifier."))
    ∧ ((add_sample ⟨[⟨"a", "t", "u", "p1", "p2", "professional", ""⟩], ["p1", "p2"]⟩
        ⟨"b", "t2", "u2", "q1", "q2", "casual", none⟩).2 = none
     ∧ (list_ids (add_sample ⟨[⟨"a", "t", "u", "p1", "p2", "professional", ""⟩], ["p1", "p2"]⟩
        ⟨"b", "t2", "u2", "q1", "q2", "casual", none⟩).1).count "b" = 1) :=
  ⟨(evals_C7 ⟨[⟨"a", "t", "u", "p1", "p2", "professional", ""⟩], ["p1", "p2"]⟩
      ⟨"a", "t2", "u2", "q1", "q2", "casual", none⟩).1 (by decide),
   (evals_C7 ⟨[⟨"a", "t", "u", "p1", "p2", "professional", ""⟩], ["p1", "p2"]⟩
      ⟨"b", "t2", "u2", "q1", "q2", "casual", none⟩).2 (by decide)⟩

/-- Checks whether a character list starts with the given pattern. -/
def startsWithChars : List Char → List Char → Bool
  | _, [] => true
  | [], _ :: _ => false
  | c :: cs, p :: ps => c == p && startsWithChars cs ps

/-- Model of the Python substring test `needle in haystack`. -/
def containsChars : List Char → List Char → Bool
  | [], pat => pat.isEmpty
  | c :: cs, pat => startsWithChars (c :: cs) pat || containsChars cs pat

/-- Function `detect_cta` from `run_evals.py`: case-insensitive substring search for any
of the `CTA_KEYWORDS`. -/
def detect_cta (text : String) : Bool :=
  CTA_KEYWORDS.any (fun keyword => containsChars (text.data.map Char.toLower) keyword.data)

/-- Model of Python `str.splitlines` restricted to the newline character:
no trailing empty line for text ending in a newline, empty text has no lines. -/
def splitLinesAux : List Char → List Char → List (List Char)
  | [], acc => if acc.isEmpty then [] else [acc.reverse]
  | c :: rest, acc =>
    if c = '\n' then acc.reverse :: splitLinesAux rest [] else splitLinesAux rest (c :: acc)

/-- Model of Python `str.strip()` on a character list. -/
def stripChars (l : List Char) : List Char :=
  (((l.dropWhile Char.isWhitespace).reverse).dropWhile Char.isWhitespace).reverse

/-- Function `heading_count` from `run_evals.py`: the number of lines whose stripped
form starts with `#`. -/
def heading_count (text : String) : ℕ :=
  ((splitLinesAux text.data []).filter
    (fun line => startsWithChars (stripChars line) ['#'])).length

/-- Outcome of the optional BERTScore call inside `collect_metrics`:
either the three scores, or an exception during the computation. -/
inductive BertOutcome where
  | ok (p r f1 : ℚ)
  | failed
deriving DecidableEq

/-- Names of the metrics that `collect_metrics` records unconditionally, in
insertion order. -/
def base_metric_keys : List String :=
  ["rouge1_f", "rougeL_f", "keyword_recall", "call_to_action", "heading_count",
   "word_count_generated", "word_count_reference"]

/-- Function `collect_metrics` from `run_evals.py`.  There `scorer` models the optional
`rouge_score` dependency as in `rouge_scores`; `bert` models the optional
`bert_score` dependency (`none` when the import failed) and the outcome of the
guarded call when it runs. -/
def collect_metrics (scorer : Option (String → String → ℚ × ℚ))
    (skip_bert : Bool) (bert : Option BertOutcome)
    (reference generated : String) : List (String × ℚ) :=
  let base := rouge_scores scorer reference generated ++
    [("keyword_recall", keyword_recall reference generated),
     ("call_to_action", if detect_cta generated then 1 else 0),
     ("heading_count", (heading_count generated : ℚ)),
     ("word_count_generated", ((tokenize generated).length : ℚ)),
     ("word_count_reference", ((tokenize reference).length : ℚ))]
  if skip_bert then base
  else
    match bert with
    | none => base
    | some (BertOutcome.ok p r f1) =>
      base ++ [("bert_precision", round4 p), ("bert_recall", round4 r),
               ("bert_f1", round4 f1)]
    | some BertOutcome.failed => base ++ [("bert_f1_error", 1)]

theorem rouge_scores_keys (scorer : Option (String → String → ℚ × ℚ))
    (reference generated : String) :
    (rouge_scores scorer reference generated).map Prod.fst = ["rouge1_f", "rougeL_f"] := by
  cases scorer with
  | none => rfl
  | some score => rfl

/-- C10: in every configuration where the semantic-similarity metric is
skipped, unavailable, or failing, the collected metric keys still include all
seven base metrics, and in the failing case the sentinel pair
`("bert_f1_error", 1.0)` is recorded instead of aborting. -/
theorem evals_C10 (scorer : Option (String → String → ℚ × ℚ)) (skip_bert : Bool)
    (bert : Option BertOutcome) (reference generated : String)
    (hconf : skip_bert = true ∨ bert = none ∨ bert = some BertOutcome.failed) :
    base_metric_keys ⊆ (collect_metrics scorer skip_bert bert reference generated).map Prod.fst
    ∧ (skip_bert = false → bert = some BertOutcome.failed →
        ("bert_f1_error", (1 : ℚ)) ∈ collect_metrics scorer skip_bert bert reference generated) := by
  have hbase : ∀ l : List (String × ℚ),
      (((rouge_scores scorer reference generated ++
        [("keyword_recall", keyword_recall reference generated),
         ("call_to_action", if detect_cta generated then 1 else 0),
         ("heading_count", (heading_count generated : ℚ)),
         ("word_count_generated", ((tokenize generated).length : ℚ)),
         ("word_count_reference", ((tokenize reference).length : ℚ))]) ++ l)).map Prod.fst
        = base_metric_keys ++ l.map Prod.fst := by
    intro l
    simp only [List.map_append, rouge_scores_keys]
    rfl
  constructor
  · cases skip_bert with
    | true =>
      simp only [collect_metrics, if_true]
      intro k hk
      have h := hbase []
      simp only [List.append_nil] at h
      rw [h]
      exact hk
    | false =>
      rcases hconf with hconf | hconf | hconf
      · exact absurd hconf (by simp)
      · subst hconf
        simp only [collect_metrics, Bool.false_eq_true, if_false]
        intro k hk
        have h := hbase []
        simp only [List.append_nil] at h
        rw [h]
        exact hk
      · subst hconf
        simp only [collect_metrics, Bool.false_eq_true, if_false]
        intro k hk
        rw [hbase [("bert_f1_error", 1)]]
        exact List.mem_append_left _ hk
  · intro hskip hfail
    subst hskip
    subst hfail
    simp only [collect_metrics, Bool.false_eq_true, if_false]
    exact List.mem_append_right _ (List.mem_singleton.mpr rfl)

theorem evals_C10_witness :
    ("bert_f1_error", (1 : ℚ))
      ∈ collect_metrics none false (some BertOutcome.failed) "alpha" "beta" :=
  (evals_C10 none false (some BertOutcome.failed) "alpha" "beta" (Or.inr (Or.inr rfl))).2 rfl rfl
